import Mathlib

/-!
Shallow embedding of the three Vertex AI scripts of this repository:
`verify_models.py` (config-driven model verification flow) and
`panggil_model.py` (raw HTTP transport path).  External effects (the
file system, the identity provider, the Vertex AI SDK, the HTTP server)
are passed in explicitly as parameters; each script becomes a pure
function from those inputs to the run trace: the lines it prints, the
external calls it attempts, and how the process terminates (normal
return or an uncaught exception).
-/

/-- A JSON value, as produced by `response.json()` and consumed by
`json.dumps`; enough structure for the request payloads and response
bodies of these scripts. -/
inductive JVal where
  | jstr (s : String)
  | jbool (b : Bool)
  | jnum (n : Int)
  | jarr (elems : List JVal)
  | jobj (fields : List (String × JVal))
deriving Repr

/-- One line of standard output: either a plain message (one `print`
argument) or the pretty-printed dump of a JSON value
(`print(json.dumps(v, indent=2))`). -/
inductive OutLine where
  | msg (s : String)
  | jsonDump (v : JVal)
deriving Repr

/-- How the process of the script ends: a normal return from the entry
function (exit code 0) or an exception propagating uncaught out of it. -/
inductive Term where
  | returned
  | raised (exn : String)
deriving Repr, DecidableEq

/-- An HTTP request as assembled by `requests.post(url, headers=headers,
json=data)` in `panggil_model.py`. -/
structure HttpRequest where
  method : String
  url : String
  headers : List (String × String)
  body : JVal
deriving Repr

/-- External calls the scripts can attempt, in order of occurrence. -/
inductive Event where
  | connInit (project location : String)
  | accessModel (endpointId : String)
  | generateContent (prompt : String)
  | httpPost (req : HttpRequest)
deriving Repr

/-- The trace of one script run. -/
structure RunResult where
  printed : List OutLine
  events : List Event
  term : Term
deriving Repr

/-- First-match lookup in an association list, modelling Python
dictionary indexing / `.get` on the dictionaries produced by
`yaml.safe_load` (whose keys are unique). -/
def dictGet {α : Type} (d : List (String × α)) (k : String) : Option α :=
  match d with
  | [] => none
  | (k2, v) :: rest => if k2 = k then some v else dictGet rest k

/-! ## verify_models.py -/

/-- A config entry: the dictionary value under one alias of the YAML
mapping (e.g. `{name: ..., endpoint_id: ...}`), with string fields. -/
abbrev Entry := List (String × String)

/-- The mapping `yaml.safe_load` builds from `models.yaml`, in file
order: alias to entry. -/
abbrev Config := List (String × Entry)

/-- Outcome of `open(config_path)` followed by `yaml.safe_load(f)`:
the open can raise `FileNotFoundError`, the load can raise a parse
error, or a (possibly empty, for an empty or null document) mapping is
produced. -/
inductive FileRead where
  | notFound
  | parseError (e : String)
  | parsed (config : Config)
deriving Repr

/-- Outcomes of the three SDK calls of the live test, supplied by the
environment: `vertexai.init`, `GenerativeModel(endpoint_id)`, and
`model.generate_content(prompt)` (which yields `response.text`). -/
structure ProbeEnv where
  initResult : Except String Unit
  accessResult : Except String Unit
  generateResult : Except String String
deriving Repr

def config_path : String := "src/vtx_cli/configs/models.yaml"

def project_id : String := "protean-tooling-476420-i8"

def location : String := "us-central1"

def model_to_test : String := "gemini-pro"

def test_prompt : String := "Explain what a Large Language Model is in one simple sentence."

/-- `"=" * 40`. -/
def sep40 : String := String.mk (List.replicate 40 (Char.ofNat 61))

/-- How the Python f-string renders `details.get("name")` (the source writes the key with single quotes): the string
itself, or `None` when the key is absent. -/
def pyDisplay : Option String → String
  | some s => s
  | none => "None"

/-- The lines printed by the `except Exception` handler of the live
test in `verify_model_usage`. -/
def liveFailLines (e : String) : List OutLine :=
  [.msg ("\n❌ FAILED: An error occurred during the live test: " ++ e),
   .msg "\nThis might be because the specific model endpoint is not available for your project,",
   .msg "or there\x27s a temporary issue with the service. However, your base gcloud setup is correct."]

/-- The `try` block of the live test in `verify_model_usage`: init the
connection, access the model, send the prompt; any failure is caught by
the `except Exception` clause and printed. Returns the printed lines
and the SDK calls attempted. -/
def liveTest (endpoint_id : String) (env : ProbeEnv) : List OutLine × List Event :=
  let t1 := OutLine.msg "1. Initializing connection to Vertex AI..."
  match env.initResult with
  | .error e => ([t1] ++ liveFailLines e, [.connInit project_id location])
  | .ok _ =>
    let t2 := OutLine.msg "   ✅ Connection successful.\n"
    let t3 := OutLine.msg "2. Accessing model..."
    match env.accessResult with
    | .error e =>
        ([t1, t2, t3] ++ liveFailLines e,
         [.connInit project_id location, .accessModel endpoint_id])
    | .ok _ =>
      let t4 := OutLine.msg "   ✅ Model accessed successfully.\n"
      let t5 := OutLine.msg "3. Sending a test prompt..."
      let t6 := OutLine.msg ("   Prompt: \"" ++ test_prompt ++ "\"")
      match env.generateResult with
      | .error e =>
          ([t1, t2, t3, t4, t5, t6] ++ liveFailLines e,
           [.connInit project_id location, .accessModel endpoint_id,
            .generateContent test_prompt])
      | .ok text =>
          let stripped := text.trim
          ([t1, t2, t3, t4, t5, t6,
            .msg "\n   🤖 Model Response:",
            .msg ("   \"" ++ stripped ++ "\"\n"),
            .msg sep40,
            .msg "\n✅ SUCCESS: Your gcloud configuration is correct and you can use the models in models.yaml."],
           [.connInit project_id location, .accessModel endpoint_id,
            .generateContent test_prompt])

/-- `verify_model_usage` of `verify_models.py`: load the YAML config,
list the aliases, then live-test the `gemini-pro` alias.  `file` is the
outcome of reading the config file, `env` the outcomes of the SDK calls
of the live test. -/
def verify_model_usage (file : FileRead) (env : ProbeEnv) : RunResult :=
  let header := OutLine.msg ("--- Loading models from " ++ config_path ++ " ---\n")
  match file with
  | .notFound =>
      ⟨[header, .msg ("❌ Error: Configuration file not found at " ++ config_path)],
       [], .returned⟩
  | .parseError e =>
      ⟨[header, .msg ("❌ Error reading or parsing YAML file: " ++ e)], [], .returned⟩
  | .parsed config =>
      if config.isEmpty then
        ⟨[header, .msg "❌ Error: models.yaml is empty or could not be read."],
         [], .returned⟩
      else
        let listing :=
          [OutLine.msg "✅ Models available in your configuration file:"]
            ++ config.map (fun p =>
                 let nm := pyDisplay (dictGet p.2 "name")
                 OutLine.msg ("- " ++ p.1 ++ " (" ++ nm ++ ")"))
            ++ [OutLine.msg ("\n" ++ sep40 ++ "\n")]
        let pre := [header] ++ listing
        match dictGet config model_to_test with
        | none =>
            ⟨pre ++ [.msg ("Model \x27" ++ model_to_test
                      ++ "\x27 not found in config. Skipping live test.")],
             [], .returned⟩
        | some details =>
            match dictGet details "endpoint_id" with
            | none =>
                -- the lookup `config[model_to_test]["endpoint_id"]` raises KeyError,
                -- outside any try statement: it propagates uncaught.
                ⟨pre, [], .raised "KeyError: \x27endpoint_id\x27"⟩
            | some endpoint_id =>
                let pre2 := pre ++ [.msg ("--- Performing a live test with \x27"
                              ++ model_to_test ++ "\x27 (" ++ endpoint_id ++ ") ---\n")]
                let r := liveTest endpoint_id env
                ⟨pre2 ++ r.1, r.2, .returned⟩

/-! ## panggil_model.py -/

/-- The HTTP response the server returns to `requests.post`:
`status` is `response.status_code`; `bodyJson` is `some v` when
`response.json()` decodes the body to `v`, and `none` when the body is
not valid JSON (so `response.json()` raises). -/
structure HttpResp where
  status : Nat
  bodyJson : Option JVal
deriving Repr

def PROJECT_ID : String := "protean-tooling-476420-i8"

def REGION : String := "us-south1"

def MODEL_ID : String := "gemini-1.0-pro"

def PROMPT : String := "What is the capital of Texas?"

/-- The request assembled in steps 3–4 of `panggil_model_vertex`:
endpoint host `{REGION}-aiplatform.googleapis.com`, URL
`https://{ENDPOINT}/v1/projects/{PROJECT_ID}/locations/{REGION}/endpoints/openapi/chat/completions`,
bearer authorization header, and the JSON payload
`{model, stream: false, messages: [{role: "user", content: prompt}]}`.
Factored over the configuration constants and the token. -/
def buildRequest (projectId region modelId prompt token : String) : HttpRequest :=
  let endpoint := region ++ "-aiplatform.googleapis.com"
  let url := "https://" ++ endpoint ++ "/v1/projects/" ++ projectId
      ++ "/locations/" ++ region ++ "/endpoints/openapi/chat/completions"
  { method := "POST"
    url := url
    headers := [("Authorization", "Bearer " ++ token),
                ("Content-Type", "application/json")]
    body := .jobj [("model", .jstr modelId),
                   ("stream", .jbool false),
                   ("messages", .jarr [.jobj [("role", .jstr "user"),
                                              ("content", .jstr prompt)]])] }

/-- `requests.Response.raise_for_status` raises `HTTPError` exactly for
client-error (4xx) and server-error (5xx) status codes. -/
def raisesForStatus (status : Nat) : Bool :=
  (400 ≤ status && status < 500) || (500 ≤ status && status < 600)

/-- `panggil_model_vertex` of `panggil_model.py`.  `auth` is what
`google.auth.default` yields: `some token` for a resolved bearer token,
`none` when the environment has no default credentials (the call raises
`DefaultCredentialsError`).  `resp` is the response of the server to the
POST. -/
def panggil_model_vertex (auth : Option String) (resp : HttpResp) : RunResult :=
  let l1 := OutLine.msg ("Mencoba memanggil model: " ++ MODEL_ID ++ "\n")
  let l2 := OutLine.msg "Mengambil token autentikasi dari gcloud..."
  match auth with
  | none =>
      ⟨[l1, l2,
        .msg "❌ GAGAL: Kredensial tidak ditemukan.",
        .msg "Pastikan Anda sudah menjalankan \x27gcloud auth application-default login\x27."],
       [], .returned⟩
  | some token =>
    let l3 := OutLine.msg "✅ Token berhasil didapatkan.\n"
    let req := buildRequest PROJECT_ID REGION MODEL_ID PROMPT token
    let l4 := OutLine.msg ("Mengirim permintaan ke: " ++ req.url)
    let l5 := OutLine.msg ("Dengan prompt: \"" ++ PROMPT ++ "\"\n")
    let pre := [l1, l2, l3, l4, l5]
    let evs := [Event.httpPost req]
    if raisesForStatus resp.status then
      -- HTTPError is raised and handled by `except requests.exceptions.HTTPError`.
      let h1 := OutLine.msg ("❌ GAGAL: Terjadi error HTTP " ++ toString resp.status)
      let h2 := OutLine.msg "--- Pesan Error dari Server ---"
      match resp.bodyJson with
      | some j =>
          ⟨pre ++ [h1, h2, .jsonDump j,
            .msg "\nSeperti yang diduga, ini kemungkinan besar karena proyek Anda belum memiliki akses ke model ini di Model Garden.",
            .msg "Silakan aktifkan model di Google Cloud Console terlebih dahulu."],
           evs, .returned⟩
      | none =>
          -- `e.response.json()` raises inside the HTTPError handler; the
          -- sibling `except Exception` clause of the same try statement
          -- does not apply, so the exception propagates uncaught.
          ⟨pre ++ [h1, h2], evs, .raised "JSONDecodeError"⟩
    else
      let s1 := OutLine.msg "--- Respons dari Model ---"
      match resp.bodyJson with
      | some j =>
          ⟨pre ++ [s1, .jsonDump j, .msg "\n✅ Permintaan berhasil diproses."],
           evs, .returned⟩
      | none =>
          -- `response.json()` raises inside the try body and is caught by
          -- the `except Exception` clause.
          ⟨pre ++ [s1, .msg "❌ GAGAL: Terjadi error yang tidak terduga: JSONDecodeError"],
           evs, .returned⟩

/-- A probe environment in which every SDK call succeeds. -/
def envOk : ProbeEnv :=
  ⟨.ok (), .ok (), .ok "A Large Language Model is a program trained on text."⟩

/-- The round-trip config from the testable properties of the spec. -/
def cfgRoundTrip : Config :=
  [("gemini-pro", [("name", "Gemini Pro"), ("endpoint_id", "gemini-pro-001")])]

/-- Whether, in a file-read outcome, the entry of the probed alias (when the
file parsed to a mapping containing it) carries the endpoint-identifier
field — the condition under which the lookup
`config[model_to_test]["endpoint_id"]` does not raise. -/
def probedEndpointPresent : FileRead → Bool
  | .parsed cfg =>
      match dictGet cfg model_to_test with
      | some details => (dictGet details "endpoint_id").isSome
      | none => true
  | _ => true

/-! ## Theorems about the claims -/

/-- Claim C6: for every path that does not resolve to a file, the config
loader reports the specific ConfigNotFound diagnostic — the run prints
exactly the loading header and the file-not-found line (so never the
generic read/parse diagnostic), attempts no external call, and returns
normally. -/
theorem C6_missing_config_specific (env : ProbeEnv) :
    verify_model_usage .notFound env =
      ⟨[.msg "--- Loading models from src/vtx_cli/configs/models.yaml ---\n",
        .msg "❌ Error: Configuration file not found at src/vtx_cli/configs/models.yaml"],
       [], .returned⟩ := rfl

/-- Claim C6 witness at a concrete probe environment. -/
theorem C6_witness :
    verify_model_usage .notFound envOk =
      ⟨[.msg "--- Loading models from src/vtx_cli/configs/models.yaml ---\n",
        .msg "❌ Error: Configuration file not found at src/vtx_cli/configs/models.yaml"],
       [], .returned⟩ :=
  C6_missing_config_specific envOk

/-- Claim C7: a config file that parses to an empty mapping yields the
ConfigEmpty diagnostic and the run performs no probe: the printed output
is exactly the header and the empty-config line, the event trace is
empty (no connection initialization, no model call), and the run returns
normally. -/
theorem C7_empty_config_no_probe (env : ProbeEnv) :
    verify_model_usage (.parsed []) env =
      ⟨[.msg "--- Loading models from src/vtx_cli/configs/models.yaml ---\n",
        .msg "❌ Error: models.yaml is empty or could not be read."],
       [], .returned⟩ := rfl

/-- Claim C7 witness at a concrete probe environment. -/
theorem C7_witness :
    verify_model_usage (.parsed []) envOk =
      ⟨[.msg "--- Loading models from src/vtx_cli/configs/models.yaml ---\n",
        .msg "❌ Error: models.yaml is empty or could not be read."],
       [], .returned⟩ :=
  C7_empty_config_no_probe envOk

/-- Claim C5: when the ambient identity provider yields no default
credentials, the raw-transport run reports CredentialsNotFound, attempts
no HTTP request (empty event trace: credential resolution strictly
precedes the POST), and returns normally (exit code 0). -/
theorem C5_no_default_credentials (resp : HttpResp) :
    (panggil_model_vertex none resp).term = .returned ∧
    (panggil_model_vertex none resp).events = [] ∧
    OutLine.msg "❌ GAGAL: Kredensial tidak ditemukan."
      ∈ (panggil_model_vertex none resp).printed := by
  refine ⟨rfl, rfl, ?_⟩
  simp [panggil_model_vertex]

/-- Claim C2: probing an alias absent from a loaded (nonempty) config
set short-circuits before any connection or network call (empty event
trace), reports the absence informationally with the skip message, does
not raise, and does not treat the run as a failure. -/
theorem C2_absent_alias_short_circuits (cfg : Config) (env : ProbeEnv)
    (hne : cfg ≠ []) (habs : dictGet cfg model_to_test = none) :
    (verify_model_usage (.parsed cfg) env).events = [] ∧
    (verify_model_usage (.parsed cfg) env).term = .returned ∧
    OutLine.msg "Model \x27gemini-pro\x27 not found in config. Skipping live test."
      ∈ (verify_model_usage (.parsed cfg) env).printed := by
  cases cfg with
  | nil => exact absurd rfl hne
  | cons hd tl =>
      simp only [verify_model_usage, List.isEmpty_cons, Bool.false_eq_true, if_false, habs]
      simp [model_to_test]

/-- Claim C2 witness: a one-entry config without the probed alias. -/
theorem C2_witness :
    ([(("other-model" : String), ([] : Entry))] : Config) ≠ [] ∧
    dictGet [(("other-model" : String), ([] : Entry))] model_to_test = none ∧
    ((verify_model_usage (.parsed [("other-model", [])]) envOk).events = [] ∧
     (verify_model_usage (.parsed [("other-model", [])]) envOk).term = .returned ∧
     OutLine.msg "Model \x27gemini-pro\x27 not found in config. Skipping live test."
       ∈ (verify_model_usage (.parsed [("other-model", [])]) envOk).printed) :=
  ⟨by decide, by decide,
   C2_absent_alias_short_circuits [("other-model", [])] envOk (by decide) (by decide)⟩

/-- Claim C8: round-trip through the config loader. For the config
mapping gemini-pro to name "Gemini Pro" and endpoint_id
"gemini-pro-001", the loaded set has exactly the alias "gemini-pro" as
key, exposes display name "Gemini Pro" (the name field) and endpoint
identifier "gemini-pro-001" (the endpoint_id field); the run lists the
entry as "- gemini-pro (Gemini Pro)" and probes endpoint
"gemini-pro-001". -/
theorem C8_round_trip :
    cfgRoundTrip.map Prod.fst = ["gemini-pro"] ∧
    (dictGet cfgRoundTrip "gemini-pro").bind (fun d => dictGet d "name") = some "Gemini Pro" ∧
    (dictGet cfgRoundTrip "gemini-pro").bind (fun d => dictGet d "endpoint_id") = some "gemini-pro-001" ∧
    OutLine.msg "- gemini-pro (Gemini Pro)"
      ∈ (verify_model_usage (.parsed cfgRoundTrip) envOk).printed ∧
    Event.accessModel "gemini-pro-001"
      ∈ (verify_model_usage (.parsed cfgRoundTrip) envOk).events := by
  refine ⟨rfl, rfl, rfl, ?_, ?_⟩
  · exact List.get?_mem (show (verify_model_usage (.parsed cfgRoundTrip) envOk).printed.get? 2
      = some (OutLine.msg "- gemini-pro (Gemini Pro)") from rfl)
  · exact List.get?_mem (show (verify_model_usage (.parsed cfgRoundTrip) envOk).events.get? 1
      = some (Event.accessModel "gemini-pro-001") from rfl)

/-- Claim C4: on the raw-transport path, for every project, region,
model, prompt and token, the request built is a POST whose JSON body is
exactly \x7bmodel, stream: false, messages: [\x7brole: "user", content:
prompt\x7d]\x7d, whose headers carry Authorization: Bearer token, and whose
URL is https://\x7bregion\x7d-aiplatform.googleapis.com/v1/projects/\x7bproject\x7d/locations/\x7bregion\x7d/endpoints/openapi/chat/completions;
and the script, once a token is obtained, posts exactly that request. -/
theorem C4_request_shape (projectId region modelId prompt token : String) (resp : HttpResp) :
    buildRequest projectId region modelId prompt token =
      { method := "POST"
        url := "https://" ++ (region ++ "-aiplatform.googleapis.com") ++ "/v1/projects/"
                 ++ projectId ++ "/locations/" ++ region ++ "/endpoints/openapi/chat/completions"
        headers := [("Authorization", "Bearer " ++ token),
                    ("Content-Type", "application/json")]
        body := .jobj [("model", .jstr modelId),
                       ("stream", .jbool false),
                       ("messages", .jarr [.jobj [("role", .jstr "user"),
                                                  ("content", .jstr prompt)]])] } ∧
    (panggil_model_vertex (some token) resp).events =
      [Event.httpPost (buildRequest PROJECT_ID REGION MODEL_ID PROMPT token)] := by
  constructor
  · rfl
  · rcases resp with ⟨st, bj⟩
    by_cases hr : raisesForStatus st = true <;> cases bj <;>
      simp [panggil_model_vertex, hr]

/-- Claim C9 (implicit): on the raw-transport path, when the response
status makes raise_for_status raise (4xx/5xx, so the HTTPError handler
runs) and the body of the response is not valid JSON, the decode
exception raised inside the HTTPError handler is not caught by the
sibling catch-all clause of the same try statement: it propagates out of
the function uncaught. -/
theorem C9_nonjson_error_body_uncaught (token : String) (resp : HttpResp)
    (h4 : 400 ≤ resp.status) (h6 : resp.status < 600) (hb : resp.bodyJson = none) :
    (panggil_model_vertex (some token) resp).term = .raised "JSONDecodeError" := by
  rcases resp with ⟨st, bj⟩
  simp only at h4 h6 hb
  subst hb
  have hr : raisesForStatus st = true := by
    simp only [raisesForStatus, Bool.or_eq_true, Bool.and_eq_true, decide_eq_true_eq]
    omega
  simp [panggil_model_vertex, hr]

/-- Claim C9 witness: a 403 response with a non-JSON body. -/
theorem C9_witness :
    400 ≤ (403 : Nat) ∧ (403 : Nat) < 600 ∧
    (panggil_model_vertex (some "tok") ⟨403, none⟩).term = .raised "JSONDecodeError" :=
  ⟨by decide, by decide,
   C9_nonjson_error_body_uncaught "tok" ⟨403, none⟩ (by decide) (by decide) rfl⟩

/-- Claim C3 counterexample: the claim says every non-2xx response fails
with HttpError, but a 304 response (non-2xx) with JSON body \x7b\x7d is not
raised on by raise_for_status: the run takes the success path (prints
the response header line) and never prints the HTTP-error diagnostic. -/
theorem C3_counterexample :
    (panggil_model_vertex (some "tok") ⟨304, some (.jobj [])⟩).term = .returned ∧
    OutLine.msg "--- Respons dari Model ---"
      ∈ (panggil_model_vertex (some "tok") ⟨304, some (.jobj [])⟩).printed ∧
    OutLine.msg "❌ GAGAL: Terjadi error HTTP 304"
      ∉ (panggil_model_vertex (some "tok") ⟨304, some (.jobj [])⟩).printed := by
  refine ⟨rfl, ?_, ?_⟩
  · exact List.get?_mem (show (panggil_model_vertex (some "tok") ⟨304, some (.jobj [])⟩).printed.get? 5
      = some (OutLine.msg "--- Respons dari Model ---") from rfl)
  · have h : (panggil_model_vertex (some "tok") ⟨304, some (.jobj [])⟩).printed =
      [.msg "Mencoba memanggil model: gemini-1.0-pro\n",
       .msg "Mengambil token autentikasi dari gcloud...",
       .msg "✅ Token berhasil didapatkan.\n",
       .msg "Mengirim permintaan ke: https://us-south1-aiplatform.googleapis.com/v1/projects/protean-tooling-476420-i8/locations/us-south1/endpoints/openapi/chat/completions",
       .msg "Dengan prompt: \"What is the capital of Texas?\"\n",
       .msg "--- Respons dari Model ---",
       .jsonDump (.jobj []),
       .msg "\n✅ Permintaan berhasil diproses."] := rfl
    rw [h]
    simp

/-- Claim C3 (amended): for every client-error or server-error response
(status in 400..599) whose body is valid JSON, the run fails with the
HttpError diagnostic carrying the status code of the response and dumps
the JSON error body of the server verbatim, and the process still
returns normally. -/
theorem C3_http_error_verbatim (token : String) (resp : HttpResp) (j : JVal)
    (h4 : 400 ≤ resp.status) (h6 : resp.status < 600) (hb : resp.bodyJson = some j) :
    (panggil_model_vertex (some token) resp).term = .returned ∧
    OutLine.msg ("❌ GAGAL: Terjadi error HTTP " ++ toString resp.status)
      ∈ (panggil_model_vertex (some token) resp).printed ∧
    OutLine.jsonDump j ∈ (panggil_model_vertex (some token) resp).printed := by
  rcases resp with ⟨st, bj⟩
  simp only at h4 h6 hb
  subst hb
  have hr : raisesForStatus st = true := by
    simp only [raisesForStatus, Bool.or_eq_true, Bool.and_eq_true, decide_eq_true_eq]
    omega
  simp [panggil_model_vertex, hr]

/-- Claim C3 witness: the simulated 403 with body
\x7b"error": \x7b"message": "model not found"\x7d\x7d from the spec. -/
theorem C3_witness :
    400 ≤ (403 : Nat) ∧ (403 : Nat) < 600 ∧
    ((panggil_model_vertex (some "tok")
        ⟨403, some (.jobj [("error", .jobj [("message", .jstr "model not found")])])⟩).term = .returned ∧
     OutLine.msg ("❌ GAGAL: Terjadi error HTTP " ++ toString (403 : Nat))
       ∈ (panggil_model_vertex (some "tok")
           ⟨403, some (.jobj [("error", .jobj [("message", .jstr "model not found")])])⟩).printed ∧
     OutLine.jsonDump (.jobj [("error", .jobj [("message", .jstr "model not found")])])
       ∈ (panggil_model_vertex (some "tok")
           ⟨403, some (.jobj [("error", .jobj [("message", .jstr "model not found")])])⟩).printed) :=
  ⟨by decide, by decide,
   C3_http_error_verbatim "tok" ⟨403, some (.jobj [("error", .jobj [("message", .jstr "model not found")])])⟩
     (.jobj [("error", .jobj [("message", .jstr "model not found")])]) (by decide) (by decide) rfl⟩

/-- Claim C1 counterexample: for a config file whose probed alias entry
lacks the endpoint_id field (the ConfigMalformed wrong-shape case the
claim singles out), the lookup config[model_to_test][endpoint_id] sits
outside every try statement, so the KeyError propagates out of the
script uncaught instead of being converted to a printed diagnostic. -/
theorem C1_counterexample :
    (verify_model_usage (.parsed [("gemini-pro", [("name", "Gemini Pro")])]) envOk).term =
      .raised "KeyError: \x27endpoint_id\x27" := rfl

/-- Claim C1 (amended): every failure arising during a script run is
caught at top level and the process returns normally, except two
uncaught windows: in verify_models a probed alias entry lacking the
endpoint_id field raises an uncaught KeyError, and in panggil_model a
4xx/5xx response with a non-JSON body raises uncaught inside the
HTTPError handler. Outside those two cases both scripts return
normally for every file-read outcome, probe environment, credential
outcome and response. -/
theorem C1_amended_all_failures_caught (file : FileRead) (env : ProbeEnv)
    (auth : Option String) (resp : HttpResp)
    (hcfg : probedEndpointPresent file = true)
    (hresp : raisesForStatus resp.status = true → resp.bodyJson.isSome) :
    (verify_model_usage file env).term = .returned ∧
    (panggil_model_vertex auth resp).term = .returned := by
  constructor
  · cases file with
    | notFound => rfl
    | parseError e => rfl
    | parsed cfg =>
        cases cfg with
        | nil => rfl
        | cons hd tl =>
            cases hd2 : dictGet (hd :: tl) model_to_test with
            | none =>
                simp [verify_model_usage, hd2]
            | some details =>
                cases he : dictGet details "endpoint_id" with
                | none =>
                    exfalso
                    simp [probedEndpointPresent, hd2, he] at hcfg
                | some endpoint_id =>
                    simp [verify_model_usage, hd2, he]
  · cases auth with
    | none => rfl
    | some token =>
        rcases resp with ⟨st, bj⟩
        by_cases hr : raisesForStatus st = true
        · have hs := hresp hr
          cases bj with
          | none => simp at hs
          | some j => simp [panggil_model_vertex, hr]
        · cases bj <;> simp [panggil_model_vertex, hr]

/-- Claim C1 witness: a well-formed config and a 403 JSON-body
response; both scripts return normally. -/
theorem C1_witness :
    probedEndpointPresent (.parsed cfgRoundTrip) = true ∧
    (raisesForStatus (403 : Nat) = true →
      (some (JVal.jobj [("error", JVal.jobj [("message", JVal.jstr "model not found")])])).isSome) ∧
    ((verify_model_usage (.parsed cfgRoundTrip) envOk).term = .returned ∧
     (panggil_model_vertex (some "tok")
        ⟨403, some (.jobj [("error", .jobj [("message", .jstr "model not found")])])⟩).term = .returned) :=
  ⟨by decide, fun _ => rfl,
   C1_amended_all_failures_caught (.parsed cfgRoundTrip) envOk (some "tok")
     ⟨403, some (.jobj [("error", .jobj [("message", .jstr "model not found")])])⟩
     (by decide) (fun _ => rfl)⟩

/-- Claim C10 (implicit): a config entry lacking the name field never
makes the listing fail — it is displayed with a None display name and
the run still returns normally — whereas the endpoint_id field of the
probed alias is accessed by direct key lookup: when it is missing the
KeyError propagates. Only the display name is optional at the public
interface. -/
theorem C10_display_name_optional (env : ProbeEnv) (fields fields2 : Entry) (e : String)
    (hn : dictGet fields "name" = none)
    (he : dictGet fields "endpoint_id" = some e)
    (he2 : dictGet fields2 "endpoint_id" = none) :
    OutLine.msg "- gemini-pro (None)"
      ∈ (verify_model_usage (.parsed [(model_to_test, fields)]) env).printed ∧
    (verify_model_usage (.parsed [(model_to_test, fields)]) env).term = .returned ∧
    (verify_model_usage (.parsed [(model_to_test, fields2)]) env).term =
      .raised "KeyError: \x27endpoint_id\x27" := by
  refine ⟨?_, ?_, ?_⟩
  · simp [verify_model_usage, dictGet, hn, he, model_to_test, pyDisplay]
  · simp [verify_model_usage, dictGet, he, model_to_test]
  · simp [verify_model_usage, dictGet, he2, model_to_test]

/-- Claim C10 witness: a nameless entry with an endpoint_id, and an
entry without endpoint_id. -/
theorem C10_witness :
    dictGet [(("endpoint_id" : String), ("gemini-pro-001" : String))] "name" = none ∧
    dictGet [(("endpoint_id" : String), ("gemini-pro-001" : String))] "endpoint_id" = some "gemini-pro-001" ∧
    dictGet [(("name" : String), ("Gemini Pro" : String))] "endpoint_id" = none ∧
    (OutLine.msg "- gemini-pro (None)"
       ∈ (verify_model_usage (.parsed [(model_to_test, [("endpoint_id", "gemini-pro-001")])]) envOk).printed ∧
     (verify_model_usage (.parsed [(model_to_test, [("endpoint_id", "gemini-pro-001")])]) envOk).term = .returned ∧
     (verify_model_usage (.parsed [(model_to_test, [("name", "Gemini Pro")])]) envOk).term =
       .raised "KeyError: \x27endpoint_id\x27") :=
  ⟨by decide, by decide, by decide,
   C10_display_name_optional envOk [("endpoint_id", "gemini-pro-001")] [("name", "Gemini Pro")]
     "gemini-pro-001" (by decide) (by decide) (by decide)⟩
